import Mathlib

/-!
Verification of the transaction tax-calculation engine.

Monetary values are modelled as exact rationals (the persisted columns are
fixed-point `numeric(15,2)` decimals; persistence rounding to two decimal
places is modelled by `round2`, applied at every database write of a
monetary field, mirroring the PostgreSQL `numeric` column scale declared in
the schema).  Fallible handlers return `Except HandlerError`.

Sources embedded here:
- `src/server/src/handlers/add_transaction_item.ts` (`addTransactionItem`,
  `recalculateTransactionTotals`),
- the remove-item handler (`removeTransactionItem`),
- `src/server/src/handlers/create_transaction.ts` (`createTransaction`),
- `src/server/src/handlers/get_transactions.ts` (`getTransactions`),
- the UI preview computation `calculations` from
  `src/client/src/components/TransactionManager.tsx`.
-/

/-- Rounding to two decimal places, half away from zero, as PostgreSQL
rounds when storing into a `numeric(15,2)` column. -/
def round2 (x : ℚ) : ℚ :=
  if 0 ≤ x then ((⌊x * 100 + 1/2⌋ : ℤ) : ℚ) / 100
  else -(((⌊-x * 100 + 1/2⌋ : ℤ) : ℚ) / 100)

/-- Row of `catalog_items`. -/
structure CatalogItem where
  id : Nat
  item_code : String
  item_name : String
  unit_price : ℚ
deriving Repr, DecidableEq

/-- Row of `transaction_items`. -/
structure TransactionItem where
  id : Nat
  transaction_id : Nat
  catalog_item_id : Nat
  item_code : String
  item_name : String
  quantity : ℚ
  unit_price : ℚ
  discount : ℚ
  line_total : ℚ
deriving Repr, DecidableEq

/-- Row of `transactions` (descriptive fields that no handler reads are
omitted; the tax flags, service value and the derived-field group are all
present). -/
structure Transaction where
  id : Nat
  transaction_id : String
  transaction_date : ℤ
  customer_name : String
  customer_address : String
  treasurer_principal_name : String
  service_value : Option ℚ
  service_type : Option String
  subtotal : ℚ
  vat_amount : ℚ
  local_tax_amount : ℚ
  pph22_amount : ℚ
  pph23_amount : ℚ
  stamp_duty_required : Bool
  stamp_duty_amount : ℚ
  total_amount : ℚ
  vat_enabled : Bool
  local_tax_enabled : Bool
  pph22_enabled : Bool
  pph23_enabled : Bool
  created_at : ℤ
deriving Repr, DecidableEq

/-- The relational store: the three tables plus the serial-id counters. -/
structure Database where
  transactions : List Transaction
  catalogItems : List CatalogItem
  transactionItems : List TransactionItem
  nextTransactionId : Nat
  nextItemId : Nat
deriving Repr, DecidableEq

/-- The error kinds the embedded handlers throw. -/
inductive HandlerError where
  | transactionNotFound (id : Nat)
  | catalogItemNotFound (id : Nat)
  | transactionItemNotFound (id : Nat)
  | transactionIdExists (transaction_id : String)
deriving Repr, DecidableEq

/-- Input of `addTransactionItem` (`CreateTransactionItemInput`). -/
structure CreateTransactionItemInput where
  transaction_id : Nat
  catalog_item_id : Nat
  quantity : ℚ
  unit_price : ℚ
  discount : ℚ
deriving Repr, DecidableEq

/-- Input of `createTransaction` (`CreateTransactionInput`). -/
structure CreateTransactionInput where
  transaction_id : String
  transaction_date : ℤ
  customer_name : String
  customer_address : String
  treasurer_principal_name : String
  service_value : Option ℚ
  service_type : Option String
  vat_enabled : Bool
  local_tax_enabled : Bool
  pph22_enabled : Bool
  pph23_enabled : Bool
deriving Repr, DecidableEq

/-- The derived-field group computed by one recalculation, before it is
written back to the `transactions` row. -/
structure TaxTotals where
  subtotal : ℚ
  vat_amount : ℚ
  local_tax_amount : ℚ
  pph22_amount : ℚ
  pph23_amount : ℚ
  stamp_duty_required : Bool
  stamp_duty_amount : ℚ
  total_amount : ℚ
deriving Repr, DecidableEq

/-- Subtotal as both recalculation paths compute it:
`items.reduce((sum, item) => sum + parseFloat(item.line_total), 0)`. -/
def sumLineTotals (items : List TransactionItem) : ℚ :=
  items.foldl (fun sum item => sum + item.line_total) 0

/-- The tax computation of `recalculateTransactionTotals` in
`add_transaction_item.ts` (lines 83-117): VAT 11%, local tax 1%, PPh22
1.5% and PPh23 2% all on the subtotal, the service value added into the
stamp-duty base, threshold 5,000,000, stamp duty 10,000. -/
def addPathTotals (transaction : Transaction) (items : List TransactionItem) : TaxTotals :=
  let subtotal := sumLineTotals items
  let vatAmount := if transaction.vat_enabled then subtotal * (11/100) else 0
  let localTaxAmount := if transaction.local_tax_enabled then subtotal * (1/100) else 0
  let pph22Amount := if transaction.pph22_enabled then subtotal * (15/1000) else 0
  let pph23Amount := if transaction.pph23_enabled then subtotal * (2/100) else 0
  let serviceValue := transaction.service_value.getD 0
  let totalBeforeStampDuty :=
    subtotal + vatAmount + localTaxAmount + pph22Amount + pph23Amount + serviceValue
  let stampDutyRequired := decide (5000000 ≤ totalBeforeStampDuty)
  let stampDutyAmount := if stampDutyRequired then (10000 : ℚ) else 0
  let totalAmount := totalBeforeStampDuty + stampDutyAmount
  { subtotal := subtotal
    vat_amount := vatAmount
    local_tax_amount := localTaxAmount
    pph22_amount := pph22Amount
    pph23_amount := pph23Amount
    stamp_duty_required := stampDutyRequired
    stamp_duty_amount := stampDutyAmount
    total_amount := totalAmount }

/-- The tax computation of `removeTransactionItem` (lines 44-66): VAT 11%,
local tax 1%, PPh22 1.5% on the subtotal, PPh23 2% of the service value
when the flag is on and a service value is present, stamp-duty base
without the service value. -/
def removePathTotals (transaction : Transaction) (items : List TransactionItem) : TaxTotals :=
  let subtotal := sumLineTotals items
  let vatAmount := if transaction.vat_enabled then subtotal * (11/100) else 0
  let localTaxAmount := if transaction.local_tax_enabled then subtotal * (1/100) else 0
  let pph22Amount := if transaction.pph22_enabled then subtotal * (15/1000) else 0
  let pph23Amount :=
    if transaction.pph23_enabled && transaction.service_value.isSome then
      transaction.service_value.getD 0 * (2/100)
    else 0
  let totalBeforeStampDuty :=
    subtotal + vatAmount + localTaxAmount + pph22Amount + pph23Amount
  let stampDutyRequired := decide (5000000 ≤ totalBeforeStampDuty)
  let stampDutyAmount := if stampDutyRequired then (10000 : ℚ) else 0
  let totalAmount := totalBeforeStampDuty + stampDutyAmount
  { subtotal := subtotal
    vat_amount := vatAmount
    local_tax_amount := localTaxAmount
    pph22_amount := pph22Amount
    pph23_amount := pph23Amount
    stamp_duty_required := stampDutyRequired
    stamp_duty_amount := stampDutyAmount
    total_amount := totalAmount }

/-- Writing the derived-field group back to a `transactions` row (the
`db.update(...).set({...})` call); every monetary column is
`numeric(15,2)`, so values are rounded on storage. -/
def applyTotals (transaction : Transaction) (totals : TaxTotals) : Transaction :=
  { transaction with
    subtotal := round2 totals.subtotal
    vat_amount := round2 totals.vat_amount
    local_tax_amount := round2 totals.local_tax_amount
    pph22_amount := round2 totals.pph22_amount
    pph23_amount := round2 totals.pph23_amount
    stamp_duty_required := totals.stamp_duty_required
    stamp_duty_amount := round2 totals.stamp_duty_amount
    total_amount := round2 totals.total_amount }

/-- `recalculateTransactionTotals` of `add_transaction_item.ts`: re-reads
the transaction and its full current item set, recomputes the totals and
updates every row whose `id` matches. -/
def recalculateTransactionTotals (transactionId : Nat) (db : Database) : Database :=
  match db.transactions.find? (fun t => t.id == transactionId) with
  | none => db
  | some transaction =>
    let items := db.transactionItems.filter (fun i => i.transaction_id == transactionId)
    let totals := addPathTotals transaction items
    { db with
      transactions := db.transactions.map (fun u =>
        if u.id == transactionId then applyTotals u totals else u) }

/-- `addTransactionItem` of `add_transaction_item.ts`: verify the
transaction exists, fetch the catalog item, compute the line total with
discount, insert the item (numeric columns rounded on storage), then
recalculate the transaction totals. -/
def addTransactionItem (input : CreateTransactionItemInput) (db : Database) :
    Except HandlerError (Database × TransactionItem) :=
  match db.transactions.find? (fun t => t.id == input.transaction_id) with
  | none => .error (.transactionNotFound input.transaction_id)
  | some _ =>
    match db.catalogItems.find? (fun c => c.id == input.catalog_item_id) with
    | none => .error (.catalogItemNotFound input.catalog_item_id)
    | some catalogItem =>
      let lineTotal := input.quantity * input.unit_price * (1 - input.discount / 100)
      let transactionItem : TransactionItem :=
        { id := db.nextItemId
          transaction_id := input.transaction_id
          catalog_item_id := input.catalog_item_id
          item_code := catalogItem.item_code
          item_name := catalogItem.item_name
          quantity := round2 input.quantity
          unit_price := round2 input.unit_price
          discount := round2 input.discount
          line_total := round2 lineTotal }
      let db1 : Database :=
        { db with
          transactionItems := db.transactionItems ++ [transactionItem]
          nextItemId := db.nextItemId + 1 }
      let db2 := recalculateTransactionTotals input.transaction_id db1
      .ok (db2, transactionItem)

/-- `removeTransactionItem`: look the item up, delete it, re-read the
transaction and the remaining items, recompute via the remove-path rules
and update the row. -/
def removeTransactionItem (id : Nat) (db : Database) : Except HandlerError Database :=
  match db.transactionItems.find? (fun i => i.id == id) with
  | none => .error (.transactionItemNotFound id)
  | some transactionItem =>
    let transactionId := transactionItem.transaction_id
    let db1 : Database :=
      { db with transactionItems := db.transactionItems.filter (fun i => i.id != id) }
    match db1.transactions.find? (fun t => t.id == transactionId) with
    | none => .error (.transactionNotFound transactionId)
    | some transaction =>
      let remainingItems := db1.transactionItems.filter (fun i => i.transaction_id == transactionId)
      let totals := removePathTotals transaction remainingItems
      .ok { db1 with
            transactions := db1.transactions.map (fun u =>
              if u.id == transactionId then applyTotals u totals else u) }

/-- `createTransaction` of `create_transaction.ts`: reject a duplicate
`transaction_id`, then insert a row with the derived-field group zeroed
and `stamp_duty_required = false`.  The JavaScript truthiness test
`input.service_value ? ... : null` stores `null` for an absent or zero
service value. -/
def createTransaction (input : CreateTransactionInput) (now : ℤ) (db : Database) :
    Except HandlerError (Database × Transaction) :=
  match db.transactions.find? (fun t => t.transaction_id == input.transaction_id) with
  | some _ => .error (.transactionIdExists input.transaction_id)
  | none =>
    let transaction : Transaction :=
      { id := db.nextTransactionId
        transaction_id := input.transaction_id
        transaction_date := input.transaction_date
        customer_name := input.customer_name
        customer_address := input.customer_address
        treasurer_principal_name := input.treasurer_principal_name
        service_value :=
          match input.service_value with
          | some v => if v == 0 then none else some (round2 v)
          | none => none
        service_type := input.service_type
        subtotal := 0
        vat_amount := 0
        local_tax_amount := 0
        pph22_amount := 0
        pph23_amount := 0
        stamp_duty_required := false
        stamp_duty_amount := 0
        total_amount := 0
        vat_enabled := input.vat_enabled
        local_tax_enabled := input.local_tax_enabled
        pph22_enabled := input.pph22_enabled
        pph23_enabled := input.pph23_enabled
        created_at := now }
    .ok ({ db with
           transactions := db.transactions ++ [transaction]
           nextTransactionId := db.nextTransactionId + 1 }, transaction)

/-- `getTransactionById`: first matching row, or `null`. -/
def getTransactionById (id : Nat) (db : Database) : Option Transaction :=
  db.transactions.find? (fun t => t.id == id)

/-- Result of the UI-layer preview computation `calculations` in
`TransactionManager.tsx`. -/
structure UICalcResult where
  subtotal : ℚ
  vatAmount : ℚ
  localTaxAmount : ℚ
  pph22Amount : ℚ
  pph23Amount : ℚ
  stampDutyRequired : Bool
  stampDutyAmount : ℚ
  totalAmount : ℚ
deriving Repr, DecidableEq

/-- The UI-layer preview `calculations` (`TransactionManager.tsx`, lines
68-91): VAT 11%, local tax 10%, PPh22 1.5% on the subtotal, PPh23 2% of
the service value when the flag is on and the value is truthy (non-null
and non-zero), stamp duty from the subtotal alone, and the PPh amounts
subtracted from the total. -/
def calculations (vat_enabled local_tax_enabled pph22_enabled pph23_enabled : Bool)
    (service_value : Option ℚ) (lineTotals : List ℚ) : UICalcResult :=
  let subtotal := lineTotals.foldl (fun sum lineTotal => sum + lineTotal) 0
  let vatAmount := if vat_enabled then subtotal * (11/100) else 0
  let localTaxAmount := if local_tax_enabled then subtotal * (10/100) else 0
  let pph22Amount := if pph22_enabled then subtotal * (15/1000) else 0
  let pph23Amount :=
    if pph23_enabled && (match service_value with
      | some v => !(v == 0)
      | none => false) then
      service_value.getD 0 * (2/100)
    else 0
  let stampDutyRequired := decide (5000000 ≤ subtotal)
  let stampDutyAmount := if stampDutyRequired then (10000 : ℚ) else 0
  let totalAmount :=
    subtotal + vatAmount + localTaxAmount + stampDutyAmount - pph22Amount - pph23Amount
  { subtotal := subtotal
    vatAmount := vatAmount
    localTaxAmount := localTaxAmount
    pph22Amount := pph22Amount
    pph23Amount := pph23Amount
    stampDutyRequired := stampDutyRequired
    stampDutyAmount := stampDutyAmount
    totalAmount := totalAmount }

/-- Filter object of `getTransactions` (`TransactionFilter`). -/
structure TransactionFilter where
  start_date : Option ℤ
  end_date : Option ℤ
  customer_name : Option String
deriving Repr, DecidableEq

/-- Boolean test that `needle` occurs contiguously inside `haystack`. -/
def startsWithChars : List Char → List Char → Bool
  | [], _ => true
  | _ :: _, [] => false
  | p :: ps, c :: cs => p == c && startsWithChars ps cs

/-- Contiguous-sublist test used to model the SQL `ilike '%name%'`. -/
def containsChars (needle : List Char) : List Char → Bool
  | [] => startsWithChars needle []
  | c :: cs => startsWithChars needle (c :: cs) || containsChars needle cs

/-- Lower-cased character list of a string (case-insensitive matching). -/
def lowerChars (s : String) : List Char :=
  s.toList.map Char.toLower

/-- The conditions array `getTransactions` builds (`get_transactions.ts`,
lines 10-22): a `gte` on the transaction date for a present start date, an
`lte` for a present end date, and a case-insensitive substring match for a
present (truthy, hence non-empty) customer name. -/
def filterConditions (filter : Option TransactionFilter) : List (Transaction → Bool) :=
  match filter with
  | none => []
  | some f =>
    (match f.start_date with
     | some s => [fun t => decide (s ≤ t.transaction_date)]
     | none => []) ++
    (match f.end_date with
     | some e => [fun t => decide (t.transaction_date ≤ e)]
     | none => []) ++
    (match f.customer_name with
     | some name =>
       if name = "" then []
       else [fun t => containsChars (lowerChars name) (lowerChars t.customer_name)]
     | none => [])

/-- A row matches when every pushed condition holds (`and(...conditions)`);
with no conditions every row matches. -/
def matchesFilter (filter : Option TransactionFilter) (t : Transaction) : Bool :=
  (filterConditions filter).all (fun c => c t)

/-- The SQL `orderBy(desc(transactionsTable.created_at))`, modelled as an
insertion sort by descending `created_at`. -/
def sortByCreatedAtDesc (rows : List Transaction) : List Transaction :=
  rows.insertionSort (fun a b => b.created_at ≤ a.created_at)

/-- `getTransactions` (`get_transactions.ts`): build the conditions, query
with `where(and(...))` only when at least one condition exists, and order
by `created_at` descending in both branches. -/
def getTransactions (filter : Option TransactionFilter) (rows : List Transaction) :
    List Transaction :=
  let conditions := filterConditions filter
  let results :=
    if 0 < conditions.length then
      rows.filter (fun t => conditions.all (fun c => c t))
    else rows
  sortByCreatedAtDesc results

/-- A transaction row with the given flags and service value, zeroed
derived fields, for concrete scenarios. -/
def mkTransaction (vat_enabled local_tax_enabled pph22_enabled pph23_enabled : Bool)
    (service_value : Option ℚ) : Transaction :=
  { id := 1
    transaction_id := "TXN001"
    transaction_date := 0
    customer_name := "Test Customer"
    customer_address := "Test Address"
    treasurer_principal_name := "Test Treasurer"
    service_value := service_value
    service_type := none
    subtotal := 0
    vat_amount := 0
    local_tax_amount := 0
    pph22_amount := 0
    pph23_amount := 0
    stamp_duty_required := false
    stamp_duty_amount := 0
    total_amount := 0
    vat_enabled := vat_enabled
    local_tax_enabled := local_tax_enabled
    pph22_enabled := pph22_enabled
    pph23_enabled := pph23_enabled
    created_at := 0 }

/-- A line item of transaction 1 with the given stored line total. -/
def mkItem (line_total : ℚ) : TransactionItem :=
  { id := 1
    transaction_id := 1
    catalog_item_id := 1
    item_code := "TEST001"
    item_name := "Test Product"
    quantity := 1
    unit_price := line_total
    discount := 0
    line_total := line_total }

/-- The catalog row the concrete scenarios use. -/
def testCatalogItem : CatalogItem :=
  { id := 1, item_code := "TEST001", item_name := "Test Product", unit_price := 100000 }

/-- The add-item input the concrete scenarios use: quantity 2, unit price
100,000, discount 10%. -/
def testItemInput : CreateTransactionItemInput :=
  { transaction_id := 1, catalog_item_id := 1, quantity := 2, unit_price := 100000,
    discount := 10 }

/-- Database holding one transaction (Scenario A flags) and the test
catalog row, no items yet. -/
def scenarioDb : Database :=
  { transactions := [mkTransaction true true true false none]
    catalogItems := [testCatalogItem]
    transactionItems := []
    nextTransactionId := 2
    nextItemId := 1 }

/-- The empty database. -/
def emptyDb : Database :=
  { transactions := [], catalogItems := [], transactionItems := [],
    nextTransactionId := 1, nextItemId := 1 }

/-- Database holding only the test catalog row. -/
def catalogDb : Database :=
  { transactions := [], catalogItems := [testCatalogItem], transactionItems := [],
    nextTransactionId := 1, nextItemId := 1 }

/-- Scenario A creation input: VAT, local tax and PPh22 enabled, PPh23
disabled, no service value. -/
def scenarioAInput : CreateTransactionInput :=
  { transaction_id := "TXN001"
    transaction_date := 0
    customer_name := "Test Customer"
    customer_address := "Test Address"
    treasurer_principal_name := "Test Treasurer"
    service_value := none
    service_type := none
    vat_enabled := true
    local_tax_enabled := true
    pph22_enabled := true
    pph23_enabled := false }

/-- Scenario A: `createTransaction` followed by one `addTransactionItem`
with quantity 2, unit price 100,000, discount 10. -/
def scenarioARun : Except HandlerError (Database × TransactionItem) :=
  (createTransaction scenarioAInput 0 catalogDb).bind
    (fun p => addTransactionItem
      { transaction_id := p.2.id, catalog_item_id := 1, quantity := 2, unit_price := 100000,
        discount := 10 } p.1)

/-- The transaction row Scenario A is expected to store. -/
def scenarioAStored : Transaction :=
  { id := 1
    transaction_id := "TXN001"
    transaction_date := 0
    customer_name := "Test Customer"
    customer_address := "Test Address"
    treasurer_principal_name := "Test Treasurer"
    service_value := none
    service_type := none
    subtotal := 180000
    vat_amount := 19800
    local_tax_amount := 1800
    pph22_amount := 2700
    pph23_amount := 0
    stamp_duty_required := false
    stamp_duty_amount := 0
    total_amount := 204300
    vat_enabled := true
    local_tax_enabled := true
    pph22_enabled := true
    pph23_enabled := false
    created_at := 0 }

/-- The line item Scenario A is expected to store and return. -/
def scenarioAItem : TransactionItem :=
  { id := 1
    transaction_id := 1
    catalog_item_id := 1
    item_code := "TEST001"
    item_name := "Test Product"
    quantity := 2
    unit_price := 100000
    discount := 10
    line_total := 180000 }

/-- The database Scenario A is expected to end in. -/
def scenarioADbAfter : Database :=
  { transactions := [scenarioAStored]
    catalogItems := [testCatalogItem]
    transactionItems := [scenarioAItem]
    nextTransactionId := 2
    nextItemId := 2 }

/-- Database with one transaction (PPh23 on, service value 1000) owning a
single line item. -/
def pph23Db : Database :=
  { transactions := [mkTransaction false false false true (some 1000)]
    catalogItems := []
    transactionItems := [mkItem 100]
    nextTransactionId := 2
    nextItemId := 2 }

/-- Database with one all-flags-off transaction owning a single item. -/
def removeWitnessDb : Database :=
  { transactions := [mkTransaction false false false false none]
    catalogItems := []
    transactionItems := [mkItem 100]
    nextTransactionId := 2
    nextItemId := 2 }

/-- The expected state after removing the only item of
`removeWitnessDb`. -/
def removeWitnessDbAfter : Database :=
  { transactions := [mkTransaction false false false false none]
    catalogItems := []
    transactionItems := []
    nextTransactionId := 2
    nextItemId := 2 }

/-- Rounding fixes zero. -/
theorem round2_zero : round2 0 = 0 := by
  norm_num [round2]

/-- Claim C2: in both recalculation paths `stamp_duty_required` holds
exactly when the pre-stamp-duty total reaches 5,000,000 — the total being
subtotal plus the four tax amounts, with the service value added only on
the add-item path — `stamp_duty_amount` is 10,000 when required and 0
otherwise, and the threshold is inclusive: a pre-stamp-duty total of
exactly 5,000,000 triggers the duty while 4,999,999 does not. -/
theorem stamp_duty_threshold_rule (t : Transaction) (items : List TransactionItem) :
    (((addPathTotals t items).stamp_duty_required = true) ↔
      5000000 ≤ (addPathTotals t items).subtotal + (addPathTotals t items).vat_amount +
        (addPathTotals t items).local_tax_amount + (addPathTotals t items).pph22_amount +
        (addPathTotals t items).pph23_amount + t.service_value.getD 0) ∧
    ((addPathTotals t items).stamp_duty_amount =
      if (addPathTotals t items).stamp_duty_required then 10000 else 0) ∧
    (((removePathTotals t items).stamp_duty_required = true) ↔
      5000000 ≤ (removePathTotals t items).subtotal + (removePathTotals t items).vat_amount +
        (removePathTotals t items).local_tax_amount + (removePathTotals t items).pph22_amount +
        (removePathTotals t items).pph23_amount) ∧
    ((removePathTotals t items).stamp_duty_amount =
      if (removePathTotals t items).stamp_duty_required then 10000 else 0) ∧
    (addPathTotals (mkTransaction false false false false none) [mkItem 5000000]).stamp_duty_required
      = true ∧
    (addPathTotals (mkTransaction false false false false none) [mkItem 4999999]).stamp_duty_required
      = false ∧
    (removePathTotals (mkTransaction false false false false none)
      [mkItem 5000000]).stamp_duty_required = true ∧
    (removePathTotals (mkTransaction false false false false none)
      [mkItem 4999999]).stamp_duty_required = false := by
  refine ⟨?_, ?_, ?_, ?_, ?_, ?_, ?_, ?_⟩
  · simp [addPathTotals]
  · simp [addPathTotals]
  · simp [removePathTotals]
  · simp [removePathTotals]
  · norm_num [addPathTotals, sumLineTotals, mkTransaction, mkItem]
  · norm_num [addPathTotals, sumLineTotals, mkTransaction, mkItem]
  · norm_num [removePathTotals, sumLineTotals, mkTransaction, mkItem]
  · norm_num [removePathTotals, sumLineTotals, mkTransaction, mkItem]

/-- Claim C3 counterexample: with `pph23_enabled = true` and
`service_value = 500`, the add-item recalculation computes a PPh23 amount
of 2 (2% of the subtotal 100), not 2% of the service value (10). -/
theorem pph23_base_counterexample :
    (mkTransaction false false false true (some 500)).pph23_enabled = true ∧
    (mkTransaction false false false true (some 500)).service_value = some 500 ∧
    (addPathTotals (mkTransaction false false false true (some 500)) [mkItem 100]).pph23_amount
      = 2 ∧
    ((2 : ℚ) ≠ 500 * (2/100)) := by
  refine ⟨rfl, rfl, ?_, by norm_num⟩
  norm_num [addPathTotals, sumLineTotals, mkTransaction, mkItem]

/-- Claim C3 (amended): the remove-item recalculation computes PPh23 as 2%
of the service value when the flag is on and a service value is present
and 0 otherwise, while the add-item recalculation computes PPh23 as 2% of
the subtotal whenever the flag is on, without consulting the service
value. -/
theorem pph23_rule (t : Transaction) (items : List TransactionItem) :
    (removePathTotals t items).pph23_amount =
      (if t.pph23_enabled && t.service_value.isSome then
        t.service_value.getD 0 * (2/100) else 0) ∧
    (addPathTotals t items).pph23_amount =
      (if t.pph23_enabled then sumLineTotals items * (2/100) else 0) := by
  constructor
  · simp [removePathTotals]
  · simp [addPathTotals]

/-- Claim C4: with `local_tax_enabled = true`, both recalculation paths
compute the local tax amount as exactly 1% of the subtotal. -/
theorem local_tax_one_percent (t : Transaction) (items : List TransactionItem)
    (h : t.local_tax_enabled = true) :
    (addPathTotals t items).local_tax_amount = (addPathTotals t items).subtotal * (1/100) ∧
    (removePathTotals t items).local_tax_amount =
      (removePathTotals t items).subtotal * (1/100) := by
  constructor
  · simp [addPathTotals, h]
  · simp [removePathTotals, h]

/-- Claim C4 witness: the rule instantiated on a concrete transaction. -/
theorem local_tax_one_percent_witness :
    (addPathTotals (mkTransaction true true true false none) [mkItem 200]).local_tax_amount =
      (addPathTotals (mkTransaction true true true false none) [mkItem 200]).subtotal * (1/100) ∧
    (removePathTotals (mkTransaction true true true false none) [mkItem 200]).local_tax_amount =
      (removePathTotals (mkTransaction true true true false none) [mkItem 200]).subtotal
        * (1/100) :=
  local_tax_one_percent (mkTransaction true true true false none) [mkItem 200] rfl

/-- Claim C5: after either recalculation is written back, a disabled flag
forces its amount column to exactly 0, whatever the row held before. -/
theorem disabled_flag_zeroes_amount (t : Transaction) (items : List TransactionItem) :
    (t.vat_enabled = false →
      (applyTotals t (addPathTotals t items)).vat_amount = 0 ∧
      (applyTotals t (removePathTotals t items)).vat_amount = 0) ∧
    (t.local_tax_enabled = false →
      (applyTotals t (addPathTotals t items)).local_tax_amount = 0 ∧
      (applyTotals t (removePathTotals t items)).local_tax_amount = 0) ∧
    (t.pph22_enabled = false →
      (applyTotals t (addPathTotals t items)).pph22_amount = 0 ∧
      (applyTotals t (removePathTotals t items)).pph22_amount = 0) ∧
    (t.pph23_enabled = false →
      (applyTotals t (addPathTotals t items)).pph23_amount = 0 ∧
      (applyTotals t (removePathTotals t items)).pph23_amount = 0) := by
  refine ⟨fun h => ⟨?_, ?_⟩, fun h => ⟨?_, ?_⟩, fun h => ⟨?_, ?_⟩, fun h => ⟨?_, ?_⟩⟩ <;>
    simp [applyTotals, addPathTotals, removePathTotals, h, round2_zero]

/-- Claim C5 witness: all four flags off on a concrete transaction with a
nonzero item and nonzero prior amounts. -/
theorem disabled_flag_zeroes_amount_witness :
    (applyTotals (mkTransaction false false false false none)
      (addPathTotals (mkTransaction false false false false none) [mkItem 300])).vat_amount = 0 ∧
    (applyTotals (mkTransaction false false false false none)
      (removePathTotals (mkTransaction false false false false none)
        [mkItem 300])).local_tax_amount = 0 ∧
    (applyTotals (mkTransaction false false false false none)
      (addPathTotals (mkTransaction false false false false none) [mkItem 300])).pph22_amount
        = 0 ∧
    (applyTotals (mkTransaction false false false false none)
      (removePathTotals (mkTransaction false false false false none)
        [mkItem 300])).pph23_amount = 0 :=
  ⟨(disabled_flag_zeroes_amount (mkTransaction false false false false none) [mkItem 300]).1
      rfl |>.1,
   ((disabled_flag_zeroes_amount (mkTransaction false false false false none)
      [mkItem 300]).2.1 rfl).2,
   ((disabled_flag_zeroes_amount (mkTransaction false false false false none)
      [mkItem 300]).2.2.1 rfl).1,
   ((disabled_flag_zeroes_amount (mkTransaction false false false false none)
      [mkItem 300]).2.2.2 rfl).2⟩

/-- Claim C7: the stored line total of every item created by
`addTransactionItem` is `quantity * unit_price * (1 - discount/100)`,
rounded to the two-decimal currency precision of the `numeric(15,2)`
column. -/
theorem line_total_formula (input : CreateTransactionItemInput) (db db' : Database)
    (item : TransactionItem)
    (h : addTransactionItem input db = .ok (db', item)) :
    item.line_total = round2 (input.quantity * input.unit_price * (1 - input.discount / 100)) := by
  unfold addTransactionItem at h
  cases htx : db.transactions.find? (fun t => t.id == input.transaction_id) with
  | none => rw [htx] at h; exact absurd h (by simp)
  | some t =>
    rw [htx] at h
    cases hcat : db.catalogItems.find? (fun c => c.id == input.catalog_item_id) with
    | none => rw [hcat] at h; exact absurd h (by simp)
    | some catalogItem =>
      rw [hcat] at h
      simp only [Except.ok.injEq, Prod.mk.injEq] at h
      rw [← h.2]

/-- Claim C7 witness: a concrete successful add stores the rounded
discounted line total. -/
theorem line_total_formula_witness :
    (addTransactionItem testItemInput scenarioDb).toOption.map (fun p => p.2.line_total) =
      some (round2 (2 * 100000 * (1 - 10 / 100))) := by
  cases hrun : addTransactionItem testItemInput scenarioDb with
  | error e =>
    exact absurd hrun (by simp [addTransactionItem, scenarioDb, testItemInput, mkTransaction,
      testCatalogItem])
  | ok p =>
    have hl : p.2.line_total = round2 (2 * 100000 * (1 - 10 / 100)) := by
      have h2 := line_total_formula testItemInput scenarioDb p.1 p.2 (by rw [hrun])
      simpa [testItemInput] using h2
    simp [Except.toOption, hl]

/-- Claim C9: `addTransactionItem` fails with the transaction-not-found
error when the transaction id is unknown and with the catalog-not-found
error when the catalog id is unknown, and in either case no success value
(no inserted item, no updated database) is produced. -/
theorem add_item_not_found (input : CreateTransactionItemInput) (db : Database) :
    (db.transactions.find? (fun t => t.id == input.transaction_id) = none →
      addTransactionItem input db = .error (.transactionNotFound input.transaction_id)) ∧
    (∀ t, db.transactions.find? (fun u => u.id == input.transaction_id) = some t →
      db.catalogItems.find? (fun c => c.id == input.catalog_item_id) = none →
      addTransactionItem input db = .error (.catalogItemNotFound input.catalog_item_id)) ∧
    ((db.transactions.find? (fun t => t.id == input.transaction_id) = none ∨
      db.catalogItems.find? (fun c => c.id == input.catalog_item_id) = none) →
      ∀ db' item, addTransactionItem input db ≠ .ok (db', item)) := by
  refine ⟨fun h1 => ?_, fun t h1 h2 => ?_, fun h db' item hok => ?_⟩
  · unfold addTransactionItem
    rw [h1]
  · unfold addTransactionItem
    rw [h1, h2]
  · unfold addTransactionItem at hok
    cases htx : db.transactions.find? (fun t => t.id == input.transaction_id) with
    | none => rw [htx] at hok; exact absurd hok (by simp)
    | some t =>
      rcases h with h | h
      · rw [htx] at h; exact absurd h (by simp)
      · rw [htx, h] at hok
        exact absurd hok (by simp)

/-- Claim C9 witness: adding to an empty database fails with the
transaction-not-found error. -/
theorem add_item_not_found_witness :
    addTransactionItem testItemInput emptyDb = .error (.transactionNotFound 1) :=
  (add_item_not_found testItemInput emptyDb).1 rfl

/-- Claim C10: `getTransactions` returns, for any filter (including none),
a list sorted by `created_at` descending that is a permutation of the rows
matching the filter. -/
theorem get_transactions_sorted_desc (filter : Option TransactionFilter)
    (rows : List Transaction) :
    List.Sorted (fun a b => b.created_at ≤ a.created_at) (getTransactions filter rows) ∧
    List.Perm (getTransactions filter rows) (rows.filter (fun t => matchesFilter filter t)) := by
  haveI : IsTotal Transaction (fun a b => b.created_at ≤ a.created_at) :=
    ⟨fun a b => le_total b.created_at a.created_at⟩
  haveI : IsTrans Transaction (fun a b => b.created_at ≤ a.created_at) :=
    ⟨fun _ _ _ hab hbc => le_trans hbc hab⟩
  constructor
  · exact List.sorted_insertionSort _ _
  · simp only [getTransactions, sortByCreatedAtDesc]
    by_cases hc : 0 < (filterConditions filter).length
    · rw [if_pos hc]
      exact List.perm_insertionSort _ _
    · rw [if_neg hc]
      have hnil : filterConditions filter = [] :=
        List.length_eq_zero.mp (Nat.eq_zero_of_not_pos hc)
      have hmatch : rows.filter (fun t => matchesFilter filter t) = rows := by
        have : rows.filter (fun t => matchesFilter filter t) =
            rows.filter (fun _ => true) := by
          refine List.filter_congr fun t _ => ?_
          simp [matchesFilter, hnil]
        rw [this, List.filter_true]
      rw [hmatch]
      exact List.perm_insertionSort _ _

/-- Claim C1 (Scenario A): after creating the transaction with
`vat_enabled, local_tax_enabled, pph22_enabled` on, `pph23_enabled` off
and no service value, then adding one item with quantity 2, unit price
100,000 and discount 10, the stored line total is 180,000 and the stored
transaction has subtotal 180,000, VAT 19,800, PPh22 2,700, total 204,300
and no stamp duty. -/
theorem scenario_a_stored_values :
    scenarioARun.toOption.map (fun p => p.2.line_total) = some 180000 ∧
    scenarioARun.toOption.bind (fun p => getTransactionById 1 p.1) = some scenarioAStored ∧
    scenarioAStored.subtotal = 180000 ∧
    scenarioAStored.vat_amount = 19800 ∧
    scenarioAStored.pph22_amount = 2700 ∧
    scenarioAStored.total_amount = 204300 ∧
    scenarioAStored.stamp_duty_required = false := by
  have hrun : scenarioARun = .ok (scenarioADbAfter, scenarioAItem) := by
    norm_num [scenarioARun, scenarioAInput, catalogDb, createTransaction, addTransactionItem,
      recalculateTransactionTotals, addPathTotals, applyTotals, sumLineTotals, testCatalogItem,
      scenarioAStored, scenarioADbAfter, scenarioAItem, round2, Except.bind]
  rw [hrun]
  norm_num [Except.toOption, getTransactionById, scenarioADbAfter, scenarioAStored, scenarioAItem]

/-- Claim C6 counterexample: removing the only item of a transaction with
`pph23_enabled = true` and `service_value = 1000` leaves
`pph23_amount = 20` and `total_amount = 20`, not 0 — the derived fields do
not all return to 0 for every flag/service-value combination. -/
theorem remove_only_item_counterexample :
    pph23Db.transactionItems.filter (fun i => i.transaction_id == 1) = [mkItem 100] ∧
    ((removeTransactionItem 1 pph23Db).toOption.bind (fun db => getTransactionById 1 db)).map
      (fun t => (t.pph23_amount, t.total_amount)) = some (20, 20) ∧
    ((20 : ℚ) ≠ 0) := by
  refine ⟨rfl, ?_, by norm_num⟩
  norm_num [removeTransactionItem, pph23Db, mkItem, mkTransaction, removePathTotals,
    applyTotals, sumLineTotals, getTransactionById, round2, Except.toOption]

/-- Claim C6 (amended): removing the only line item of a transaction
resets every derived field to 0 and `stamp_duty_required` to `false` for
every flag/service-value combination in which PPh23 does not apply, i.e.
whenever `pph23_enabled` is off or no service value is present (with PPh23
applicable, `pph23_amount` — and hence `total_amount` — instead becomes 2%
of the service value, as the counterexample shows). -/
theorem remove_only_item_zeroes (db db' : Database) (iid : Nat) (it : TransactionItem)
    (h : removeTransactionItem iid db = .ok db')
    (hfound : db.transactionItems.find? (fun i => i.id == iid) = some it)
    (honly : db.transactionItems.filter (fun i => i.transaction_id == it.transaction_id) = [it])
    (hflag : ∀ u ∈ db.transactions, u.id = it.transaction_id →
      u.pph23_enabled = false ∨ u.service_value = none) :
    ∀ u ∈ db'.transactions, u.id = it.transaction_id →
      u.subtotal = 0 ∧ u.vat_amount = 0 ∧ u.local_tax_amount = 0 ∧ u.pph22_amount = 0 ∧
        u.pph23_amount = 0 ∧ u.stamp_duty_amount = 0 ∧ u.total_amount = 0 ∧
        u.stamp_duty_required = false := by
  have hid : it.id = iid := by simpa using List.find?_some hfound
  have hrem : (db.transactionItems.filter (fun i => i.id != iid)).filter
      (fun i => i.transaction_id == it.transaction_id) = [] := by
    rw [List.filter_filter]
    have hswap : db.transactionItems.filter
        (fun i => (i.transaction_id == it.transaction_id) && (i.id != iid)) =
        (db.transactionItems.filter
          (fun i => i.transaction_id == it.transaction_id)).filter (fun i => i.id != iid) := by
      rw [List.filter_filter]
      exact List.filter_congr fun a _ => Bool.and_comm _ _
    rw [hswap, honly]
    simp [hid]
  simp only [removeTransactionItem, hfound] at h
  cases hftx : db.transactions.find? (fun t => t.id == it.transaction_id) with
  | none => rw [hftx] at h; simp at h
  | some txn =>
    rw [hftx] at h
    simp only [Except.ok.injEq] at h
    subst h
    have htxnid : txn.id = it.transaction_id := by simpa using List.find?_some hftx
    have hT : removePathTotals txn [] =
        { subtotal := 0, vat_amount := 0, local_tax_amount := 0, pph22_amount := 0,
          pph23_amount := 0, stamp_duty_required := false, stamp_duty_amount := 0,
          total_amount := 0 } := by
      obtain hfl | hfl := hflag txn (List.mem_of_find?_eq_some hftx) htxnid <;>
        norm_num [removePathTotals, sumLineTotals, hfl]
    intro u hu huid
    rcases List.mem_map.mp hu with ⟨v, hv, rfl⟩
    by_cases hvid : (v.id == it.transaction_id) = true
    · rw [hrem]
      simp [hvid, hT, applyTotals, round2_zero]
    · rw [if_neg hvid] at huid
      exact absurd huid (by simpa using hvid)

/-- Claim C6 witness: the amended rule instantiated on a concrete
removal. -/
theorem remove_only_item_zeroes_witness :
    removeTransactionItem 1 removeWitnessDb = .ok removeWitnessDbAfter ∧
    ((mkTransaction false false false false none).subtotal = 0 ∧
      (mkTransaction false false false false none).vat_amount = 0 ∧
      (mkTransaction false false false false none).local_tax_amount = 0 ∧
      (mkTransaction false false false false none).pph22_amount = 0 ∧
      (mkTransaction false false false false none).pph23_amount = 0 ∧
      (mkTransaction false false false false none).stamp_duty_amount = 0 ∧
      (mkTransaction false false false false none).total_amount = 0 ∧
      (mkTransaction false false false false none).stamp_duty_required = false) := by
  have h : removeTransactionItem 1 removeWitnessDb = .ok removeWitnessDbAfter := by
    norm_num [removeTransactionItem, removeWitnessDb, removeWitnessDbAfter, mkItem,
      mkTransaction, removePathTotals, applyTotals, sumLineTotals, round2]
  refine ⟨h, ?_⟩
  exact remove_only_item_zeroes removeWitnessDb removeWitnessDbAfter 1 (mkItem 100) h rfl rfl
    (fun u hu _ => Or.inl (by
      have hu2 : u = mkTransaction false false false false none := by
        simpa [removeWitnessDb] using hu
      simp [hu2, mkTransaction]))
    (mkTransaction false false false false none) (by simp [removeWitnessDbAfter]) rfl

/-- Claim C8 counterexample: with all four flags on, service value 2,000
and one item of line total 51,000, the backend add-path total and the UI
preview total are both 60,905 — they coincide even though the PPh22
amount (765) is nonzero, because the local-tax rate difference (1% vs
10%) exactly offsets the sign difference of the PPh components. -/
theorem ui_backend_total_counterexample :
    (addPathTotals (mkTransaction true true true true (some 2000)) [mkItem 51000]).pph22_amount
      ≠ 0 ∧
    (calculations true true true true (some 2000) [51000]).pph22Amount ≠ 0 ∧
    (addPathTotals (mkTransaction true true true true (some 2000)) [mkItem 51000]).total_amount =
      (calculations true true true true (some 2000) [51000]).totalAmount := by
  refine ⟨?_, ?_, ?_⟩ <;>
    norm_num [addPathTotals, calculations, sumLineTotals, mkTransaction, mkItem]

set_option maxHeartbeats 2000000 in
/-- Claim C8 (amended): the backend add-path recalculation adds every tax
component, PPh22 and PPh23 included, positively into the total, while the
UI preview computes the total as subtotal + VAT + local tax + stamp duty
minus PPh22 minus PPh23.  With the local-tax flag off (so the 1%-versus-10%
local-tax rate conflict cannot offset the PPh sign difference) and a
nonnegative subtotal and service value, any nonzero PPh amount makes the
UI preview total strictly smaller than the backend total; with local tax
enabled the two totals can coincide despite nonzero PPh amounts, as the
counterexample shows. -/
theorem ui_backend_total_divergence (t : Transaction) (items : List TransactionItem)
    (hlt : t.local_tax_enabled = false)
    (hs : 0 ≤ sumLineTotals items)
    (hv : ∀ v, t.service_value = some v → 0 ≤ v)
    (hpph : (addPathTotals t items).pph22_amount ≠ 0 ∨
      (addPathTotals t items).pph23_amount ≠ 0 ∨
      (calculations t.vat_enabled t.local_tax_enabled t.pph22_enabled t.pph23_enabled
        t.service_value (items.map (fun i => i.line_total))).pph23Amount ≠ 0) :
    (calculations t.vat_enabled t.local_tax_enabled t.pph22_enabled t.pph23_enabled
      t.service_value (items.map (fun i => i.line_total))).totalAmount <
      (addPathTotals t items).total_amount := by
  have hsub : (items.map (fun i => i.line_total)).foldl (fun sum x => sum + x) 0
      = sumLineTotals items := by
    rw [List.foldl_map]; rfl
  have h22n : 0 ≤ (addPathTotals t items).pph22_amount := by
    simp only [addPathTotals]
    split_ifs
    · linarith
    · exact le_refl 0
  have h23bn : 0 ≤ (addPathTotals t items).pph23_amount := by
    simp only [addPathTotals]
    split_ifs
    · linarith
    · exact le_refl 0
  have h23un : 0 ≤ (calculations t.vat_enabled t.local_tax_enabled t.pph22_enabled
      t.pph23_enabled t.service_value (items.map (fun i => i.line_total))).pph23Amount := by
    simp only [calculations]
    split_ifs with hcond
    · rcases hserv : t.service_value with _ | v
      · simp [hserv]
      · have := hv v hserv
        simp only [hserv, Option.getD_some]
        linarith
    · exact le_refl 0
  have hkey : 0 < (addPathTotals t items).pph22_amount ∨
      0 < (addPathTotals t items).pph23_amount ∨
      0 < (calculations t.vat_enabled t.local_tax_enabled t.pph22_enabled t.pph23_enabled
        t.service_value (items.map (fun i => i.line_total))).pph23Amount := by
    rcases hpph with h | h | h
    · exact Or.inl (lt_of_le_of_ne h22n (Ne.symm h))
    · exact Or.inr (Or.inl (lt_of_le_of_ne h23bn (Ne.symm h)))
    · exact Or.inr (Or.inr (lt_of_le_of_ne h23un (Ne.symm h)))
  clear hpph h22n h23bn h23un
  rcases hserv : t.service_value with _ | v
  · rcases hkey with hk | hk | hk <;>
      cases hvat : t.vat_enabled <;> cases h22f : t.pph22_enabled <;>
        cases h23f : t.pph23_enabled <;>
      simp only [calculations, addPathTotals, hlt, hvat, h22f, h23f, hserv, hsub,
        Option.getD_none, Option.isSome_none, Bool.and_false, Bool.false_and, Bool.and_true,
        Bool.true_and, if_true, if_false, Bool.false_eq_true, Bool.true_eq_false, ite_self,
        decide_eq_true_eq, lt_self_iff_false, ite_false, ite_true] at hk ⊢ <;>
      split_ifs <;> linarith
  · have hv0 : 0 ≤ v := hv v hserv
    rcases eq_or_ne v 0 with hveq | hvne
    · subst hveq
      rcases hkey with hk | hk | hk <;>
        cases hvat : t.vat_enabled <;> cases h22f : t.pph22_enabled <;>
          cases h23f : t.pph23_enabled <;>
        simp only [calculations, addPathTotals, hlt, hvat, h22f, h23f, hserv, hsub,
          Option.getD_some, Option.isSome_some, Bool.and_false, Bool.false_and, Bool.and_true,
          Bool.true_and, if_true, if_false, Bool.false_eq_true, Bool.true_eq_false, ite_self,
          decide_eq_true_eq, lt_self_iff_false, ite_false, ite_true, beq_self_eq_true,
          Bool.not_true, Bool.not_false] at hk ⊢ <;>
        split_ifs <;> linarith
    · have hvb : (v == 0) = false := by simp [hvne]
      rcases hkey with hk | hk | hk <;>
        cases hvat : t.vat_enabled <;> cases h22f : t.pph22_enabled <;>
          cases h23f : t.pph23_enabled <;>
        simp only [calculations, addPathTotals, hlt, hvat, h22f, h23f, hserv, hsub, hvb,
          Option.getD_some, Option.isSome_some, Bool.and_false, Bool.false_and, Bool.and_true,
          Bool.true_and, if_true, if_false, Bool.false_eq_true, Bool.true_eq_false, ite_self,
          decide_eq_true_eq, lt_self_iff_false, ite_false, ite_true,
          Bool.not_true, Bool.not_false] at hk ⊢ <;>
        split_ifs <;> linarith

/-- Claim C8 witness: with local tax off, PPh22 on and one item of line
total 1,000, the UI preview total is strictly below the backend total. -/
theorem ui_backend_total_divergence_witness :
    (calculations (mkTransaction false false true false none).vat_enabled
      (mkTransaction false false true false none).local_tax_enabled
      (mkTransaction false false true false none).pph22_enabled
      (mkTransaction false false true false none).pph23_enabled
      (mkTransaction false false true false none).service_value
      ([mkItem 1000].map (fun i => i.line_total))).totalAmount <
      (addPathTotals (mkTransaction false false true false none) [mkItem 1000]).total_amount :=
  ui_backend_total_divergence (mkTransaction false false true false none) [mkItem 1000]
    rfl
    (by norm_num [sumLineTotals, mkItem])
    (fun v h => by simp [mkTransaction] at h)
    (Or.inl (by norm_num [addPathTotals, sumLineTotals, mkTransaction, mkItem]))
